import Mathlib

/-!
# Aijo Hub client (`src/App.jsx`): state model and properties

A shallow embedding of the React components of `src/App.jsx`:

* `App` (session slot in `sessionStorage`, `handleLogin`, `handleLogout`),
* `LoginScreen.handleSubmit`,
* `Dashboard` (`fetchAllSuppliers`, `handleSearch`, `handleSaveSupplier`,
  `openModal`, `closeModal`, the list rendering),
* `SupplierModal` (`formData`, its effect, `handleChange`, `handleSubmit`).

Every `async` handler is split at its `await`: the part that runs when the handler is
called (it updates state and issues the request) and the part that runs when the request
settles (it takes the settled result as an argument).  Component state is a record; the
`set...` calls of a handler are the field updates of the record, in source order.

Supplier objects and JSON bodies are objects with string-valued properties; a parsed list
response is an array of such objects.  A property that is `null` or `undefined` is `none`.
The body of a login response is a `Json`: `null`, an object, or some other value.  The
settled result of a `fetch` is an argument of the half of the handler that runs after it.

Object identity matters in one place, the dependency list `[mode, supplier]` of the effect
of `SupplierModal`.  At the level of values (`Dashboard`) a flag tells whether the supplier
passed to `openModal` is the object passed before; at the level of references
(`RefDashboard`) identity is equality of references.
-/

namespace AijoHub

/-! ## JavaScript values -/

/-- The constant `API_BASE_URL`. -/
def API_BASE_URL : String := "http://api.aijostore.id:8080"

/-- A JavaScript object whose properties hold strings, in insertion order. -/
abbrev JsObject := List (String × String)

/-- Property read `o[k]`; `none` stands for `undefined`. -/
def getProp : JsObject → String → Option String
  | [], _ => none
  | (k', v) :: rest, k => if k' = k then some v else getProp rest k

/-- The object `{...o, [k]: v}`: an existing property keeps its place, a new one goes last. -/
def setProp : JsObject → String → String → JsObject
  | [], k, v => [(k, v)]
  | (k', v') :: rest, k, v => if k' = k then (k', v) :: rest else (k', v') :: setProp rest k v

/-- JavaScript truthiness of a value that is a string, `null` or `undefined`. -/
def truthy : Option String → Bool
  | some s => s != ""
  | none => false

/-- What `await fetch(...)` followed (where the code asks for it) by `await response.json()`
settles to: the `fetch` promise rejects with an error carrying `message`, or a response
arrives with its `ok` flag, and `json` is what `response.json()` gives: the parsed body or
the message of the error it rejects with. -/
inductive FetchResult (β : Type) where
  | rejected (message : String)
  | response (ok : Bool) (json : Except String β)

/-- A call of `fetch`: method, address, query parameters (before URL encoding), headers, and
the object given to `JSON.stringify` for the body. -/
structure Request where
  method : String
  url : String
  query : List (String × String)
  headers : List (String × String)
  body : Option JsObject
deriving DecidableEq, Repr

/-- Effects of a handler that are visible outside component state. -/
inductive Effect where
  | fetch (r : Request)
  | alert (message : String)
deriving DecidableEq, Repr

/-! ## Dashboard state -/

/-- The value of `modalMode`: the two strings the code passes to `openModal`. -/
inductive ModalMode where
  | add
  | edit
deriving DecidableEq, Repr

/-- State of `Dashboard` (its `useState` cells and the `token` prop) together with the
`formData` cell of the `SupplierModal` it renders while `isModalOpen`. -/
structure Dashboard where
  token : String
  displayedSuppliers : List JsObject
  isLoading : Bool
  error : Option String
  isModalOpen : Bool
  modalMode : ModalMode
  editingSupplier : Option JsObject
  formData : JsObject
deriving DecidableEq, Repr

/-- The object literal that `SupplierModal` uses for an empty form. -/
def blankForm : JsObject :=
  [("id", ""), ("nama", ""), ("alamat", ""), ("telepon", ""), ("email", ""), ("npwp", "")]

/-- The object `apiHeaders`. -/
def apiHeaders (d : Dashboard) : List (String × String) :=
  [("Content-Type", "application/json"), ("Authorization", "Bearer " ++ d.token)]

/-- Initial state of a mounted `Dashboard` (the `useState` initial values). -/
def Dashboard.init (token : String) : Dashboard :=
  { token := token, displayedSuppliers := [], isLoading := true, error := none,
    isModalOpen := false, modalMode := .add, editingSupplier := none,
    formData := blankForm }

/-! ## List requests: `fetchAllSuppliers` and `handleSearch` -/

/-- The `try` block of a list request after the `await`: the data given to
`setDisplayedSuppliers`, or the message of the error that reaches `catch`.
`failMessage` is the text of the `throw` on `!response.ok`. -/
def listOutcome (failMessage : String) :
    FetchResult (List JsObject) → Except String (List JsObject)
  | .rejected m => .error m
  | .response false _ => .error failMessage
  | .response true (.error m) => .error m
  | .response true (.ok data) => .ok data

/-- The rest of a list request once it settles: `setDisplayedSuppliers(data)` or
`setError(err.message)`, then `finally` `setIsLoading(false)`. -/
def applyListOutcome (o : Except String (List JsObject)) (d : Dashboard) : Dashboard :=
  match o with
  | .ok data => { d with displayedSuppliers := data, isLoading := false }
  | .error m => { d with error := some m, isLoading := false }

/-- `fetchAllSuppliers` up to its `await`: `setIsLoading(true)`, `setError(null)`, and the
request it issues. -/
def fetchAllSuppliers (d : Dashboard) : Dashboard × Request :=
  ({ d with isLoading := true, error := none },
   { method := "GET", url := API_BASE_URL ++ "/api/supplier-kain", query := [],
     headers := apiHeaders d, body := none })

/-- `fetchAllSuppliers` from its `await` on. -/
def fetchAllSuppliers_settle (r : FetchResult (List JsObject)) (d : Dashboard) : Dashboard :=
  applyListOutcome (listOutcome "Gagal memuat data supplier." r) d

/-- `handleSearch` up to its `await`; `nama`, `alamat`, `telepon` are the values of the three
inputs of the search form. -/
def handleSearch (nama alamat telepon : String) (d : Dashboard) : Dashboard × Request :=
  ({ d with isLoading := true, error := none },
   { method := "GET", url := API_BASE_URL ++ "/api/supplier-kain/search",
     query := [("nama", nama), ("alamat", alamat), ("telepon", telepon)],
     headers := apiHeaders d, body := none })

/-- `handleSearch` from its `await` on. -/
def handleSearch_settle (r : FetchResult (List JsObject)) (d : Dashboard) : Dashboard :=
  applyListOutcome (listOutcome "Gagal mencari data." r) d

/-- A list request: a call of `fetchAllSuppliers` or of `handleSearch`. -/
inductive ListCall where
  | fetchAll
  | search (nama alamat telepon : String)
deriving DecidableEq, Repr

/-- The state after the call is initiated. -/
def ListCall.start : ListCall → Dashboard → Dashboard
  | .fetchAll, d => (fetchAllSuppliers d).1
  | .search n a t, d => (handleSearch n a t d).1

/-- The text thrown by the call on a non-success status. -/
def ListCall.failMessage : ListCall → String
  | .fetchAll => "Gagal memuat data supplier."
  | .search _ _ _ => "Gagal mencari data."

/-- The outcome of the call's `try` block for a settled request. -/
def ListCall.outcome (c : ListCall) (r : FetchResult (List JsObject)) :
    Except String (List JsObject) :=
  listOutcome c.failMessage r

/-- The state after the call's request settles. -/
def ListCall.settle : ListCall → FetchResult (List JsObject) → Dashboard → Dashboard
  | .fetchAll, r, d => fetchAllSuppliers_settle r d
  | .search _ _ _, r, d => handleSearch_settle r d

/-- The three cases of the list rendering (`isLoading ? ... : error ? ... : ...`). -/
inductive ListState where
  | Loading
  | Loaded (rows : List JsObject)
  | Failed (message : String)
deriving DecidableEq, Repr

/-- Which case the table body renders. -/
def listState (d : Dashboard) : ListState :=
  if d.isLoading then .Loading
  else if truthy d.error then .Failed (d.error.getD "")
  else .Loaded d.displayedSuppliers

/-! ## The supplier form: `openModal`, `closeModal`, `SupplierModal`, `handleSaveSupplier` -/

/-- The `useEffect` of `SupplierModal`: the value given to `setFormData` for the props
`mode` and `supplier`. -/
def modalEffect : ModalMode → Option JsObject → JsObject
  | .edit, some supplier => supplier
  | _, _ => blankForm

/-- Whether the effect of `SupplierModal` is skipped after `openModal(mode, supplier)`: the
modal is already mounted and the dependencies `[mode, supplier]` are those of the previous
render.  Two `null`s are the same; two objects are the same when `sameObject` says that the
object passed now is the one held in `editingSupplier` (they then have the same value). -/
def depsUnchanged (mode : ModalMode) (supplier : Option JsObject) (sameObject : Bool)
    (d : Dashboard) : Bool :=
  d.isModalOpen && (mode == d.modalMode) &&
    (match supplier, d.editingSupplier with
     | none, none => true
     | some s, some held => sameObject && (s == held)
     | _, _ => false)

/-- `openModal(mode, supplier)` and the render of `SupplierModal` that follows.  When the
modal was closed it mounts and its effect sets `formData`; when it was open the effect runs
again only if `mode` or `supplier` changed, otherwise the draft typed so far is kept. -/
def openModal (mode : ModalMode) (supplier : Option JsObject) (sameObject : Bool)
    (d : Dashboard) : Dashboard :=
  { d with modalMode := mode, editingSupplier := supplier, isModalOpen := true,
           formData := if depsUnchanged mode supplier sameObject d then d.formData
                       else modalEffect mode supplier }

/-- `closeModal()`. -/
def closeModal (d : Dashboard) : Dashboard :=
  { d with isModalOpen := false, editingSupplier := none }

/-- `SupplierModal.handleChange` for an event whose target has the given `name` and
`value`. -/
def handleChange (name value : String) (d : Dashboard) : Dashboard :=
  { d with formData := setProp d.formData name value }

/-- A sequence of `handleChange` events, each a pair of `name` and `value`. -/
def handleChanges (edits : List (String × String)) (d : Dashboard) : Dashboard :=
  edits.foldl (fun acc e => handleChange e.1 e.2 acc) d

/-- The interpolation of `supplierData.id` into the address. -/
def idText (supplierData : JsObject) : String :=
  (getProp supplierData "id").getD "undefined"

/-- `handleSaveSupplier(supplierData)` up to its `await`: the request it issues. -/
def handleSaveSupplier (supplierData : JsObject) (d : Dashboard) : Request :=
  let isEditMode := d.modalMode == .edit
  { method := if isEditMode then "PUT" else "POST",
    url := if isEditMode then API_BASE_URL ++ "/api/supplier-kain/" ++ idText supplierData
           else API_BASE_URL ++ "/api/supplier-kain",
    query := [], headers := apiHeaders d, body := some supplierData }

/-- The text thrown by `handleSaveSupplier` on a non-success status. -/
def saveFailMessage (isEditMode : Bool) : String :=
  "Gagal " ++ (if isEditMode then "memperbarui" else "menyimpan") ++ " supplier."

/-- `handleSaveSupplier` from its `await` on, with the `isEditMode` it computed when called:
on `response.ok`, `closeModal()` then `fetchAllSuppliers()`; otherwise `alert` of the
message.  The body of the response is not read. -/
def handleSaveSupplier_settle {β : Type} (isEditMode : Bool) (r : FetchResult β)
    (d : Dashboard) : Dashboard × List Effect :=
  match r with
  | .rejected m => (d, [.alert m])
  | .response false _ => (d, [.alert (saveFailMessage isEditMode)])
  | .response true _ =>
      let started := fetchAllSuppliers (closeModal d)
      (started.1, [.fetch started.2])

/-- Whether the save request came back with a success status. -/
def saveSucceeded {β : Type} : FetchResult β → Bool
  | .response true _ => true
  | _ => false

/-- `SupplierModal.handleSubmit`: `onSave(formData)`. -/
def handleSubmit (d : Dashboard) : Request :=
  handleSaveSupplier d.formData d

/-- The `name` attributes of the inputs of the modal form, the only elements whose
`onChange` is `handleChange`. -/
def requiredInputs : List String := ["nama", "alamat", "telepon", "email", "npwp"]

/-- The property names of the empty form object, in order. -/
def formKeys : List String := ["id", "nama", "alamat", "telepon", "email", "npwp"]

/-- What holds of the draft while the form is open: in Add mode no record is held and the
draft has the six properties of the empty form with `id` empty; in Edit mode a record is
held and the draft has that record's `id`. -/
def FormInv (d : Dashboard) : Prop :=
  d.isModalOpen = true →
    (d.modalMode = .add →
      d.editingSupplier = none ∧ d.formData.map Prod.fst = formKeys ∧
        getProp d.formData "id" = some "") ∧
    (d.modalMode = .edit →
      ∃ s, d.editingSupplier = some s ∧ getProp d.formData "id" = getProp s "id")

/-- The states a `Dashboard` can be in: its initial state, and the state after any handler
ran on such a state.  `openModal` is called as `openModal('add')` or as
`openModal('edit', s)`; `handleChange` comes from one of the five inputs. -/
inductive Reachable : Dashboard → Prop where
  | mount (token : String) : Reachable (Dashboard.init token)
  | listStart {d : Dashboard} (c : ListCall) : Reachable d → Reachable (c.start d)
  | listSettle {d : Dashboard} (c : ListCall) (r : FetchResult (List JsObject)) :
      Reachable d → Reachable (c.settle r d)
  | openAdd {d : Dashboard} (sameObject : Bool) :
      Reachable d → Reachable (openModal .add none sameObject d)
  | openEdit {d : Dashboard} (s : JsObject) (sameObject : Bool) :
      Reachable d → Reachable (openModal .edit (some s) sameObject d)
  | close {d : Dashboard} : Reachable d → Reachable (closeModal d)
  | change {d : Dashboard} (name value : String) :
      name ∈ requiredInputs → Reachable d → Reachable (handleChange name value d)
  | saveSettle {d : Dashboard} {β : Type} (isEditMode : Bool) (r : FetchResult β) :
      Reachable d → Reachable (handleSaveSupplier_settle isEditMode r d).1

/-! ## Session: `App`, `LoginScreen` -/

/-- The `sessionStorage` key-value store. -/
abbrev Storage := List (String × String)

/-- `sessionStorage.getItem(k)`; `none` stands for `null`. -/
def getItem (st : Storage) (k : String) : Option String := getProp st k

/-- `sessionStorage.setItem(k, v)`. -/
def setItem (st : Storage) (k v : String) : Storage := setProp st k v

/-- `sessionStorage.removeItem(k)`. -/
def removeItem (st : Storage) (k : String) : Storage := st.filter (fun p => p.1 != k)

/-- State of `App`: the store it reads and writes, and its `token` and `user` cells. -/
structure App where
  sessionStorage : Storage
  token : Option String
  user : Option String
deriving DecidableEq, Repr

/-- Mount of `App`: the two `useState` initial values read from `sessionStorage`. -/
def App.init (st : Storage) : App :=
  { sessionStorage := st, token := getItem st "aijoHubToken", user := getItem st "aijoHubUser" }

/-- `handleLogin(username, receivedToken)`. -/
def handleLogin (username receivedToken : String) (a : App) : App :=
  { sessionStorage :=
      setItem (setItem a.sessionStorage "aijoHubToken" receivedToken) "aijoHubUser" username,
    token := some receivedToken, user := some username }

/-- `handleLogout()`. -/
def handleLogout (a : App) : App :=
  { sessionStorage := removeItem (removeItem a.sessionStorage "aijoHubToken") "aijoHubUser",
    token := none, user := none }

/-- What `App` returns. -/
inductive View where
  | LoginScreen
  | Dashboard (user : Option String) (token : String)
deriving DecidableEq, Repr

/-- The body of `App` after its handlers: `if (!token) ... LoginScreen ... else Dashboard`. -/
def App.render (a : App) : View :=
  if !truthy a.token then .LoginScreen else .Dashboard a.user (a.token.getD "")

/-- State of `LoginScreen`. -/
structure LoginScreen where
  username : String
  password : String
  error : String
  isLoading : Bool
deriving DecidableEq, Repr

/-- `LoginScreen.handleSubmit` up to its `await`. -/
def LoginScreen.handleSubmit (l : LoginScreen) : LoginScreen × Request :=
  ({ l with isLoading := true, error := "" },
   { method := "POST", url := API_BASE_URL ++ "/api/auth/login", query := [],
     headers := [("Content-Type", "application/json")],
     body := some [("username", l.username), ("password", l.password)] })

/-- The expression `v || fallback` for a string-or-undefined `v`. -/
def orElse (v : Option String) (fallback : String) : String :=
  if truthy v then v.getD "" else fallback

/-- A parsed JSON body, as far as a property read tells values apart: `null`, an object,
or any other value (a number, a string, a boolean, an array). -/
inductive Json where
  | null
  | object (o : JsObject)
  | other
deriving DecidableEq, Repr

/-- The property read `v.k`: on `null` it throws a `TypeError`, whose message, the
runtime's, is `nullReadText k`; on an object it gives the property; on any other value it
gives `undefined`. -/
def readProp (nullReadText : String → String) (v : Json) (k : String) :
    Except String (Option String) :=
  match v with
  | .null => .error (nullReadText k)
  | .object o => .ok (getProp o k)
  | .other => .ok none

/-- The `try` block of `LoginScreen.handleSubmit` after the `await`: the token handed to
`onLogin`, or the message of the error that reaches `catch` (a thrown `Error`, a rejected
`fetch` or `response.json()`, or the `TypeError` of a property read on `null`). -/
def loginOutcome (nullReadText : String → String) :
    FetchResult Json → Except String String
  | .rejected m => .error m
  | .response false json =>
      let errorData : Json :=
        match json with
        | .ok body => body
        | .error _ => .object [("message", "Username atau password salah.")]
      match readProp nullReadText errorData "message" with
      | .error t => .error t
      | .ok message => .error (orElse message "Gagal melakukan otentikasi.")
  | .response true (.error m) => .error m
  | .response true (.ok data) =>
      match readProp nullReadText data "token" with
      | .error t => .error t
      | .ok token =>
          if truthy token then .ok (token.getD "")
          else .error "Token tidak ditemukan pada respons."

/-- `LoginScreen.handleSubmit` from its `await` on, for the `username` it was called with:
the new state of the screen and the arguments of the `onLogin` call, if it makes one. -/
def LoginScreen.handleSubmit_settle (nullReadText : String → String) (username : String)
    (r : FetchResult Json) (l : LoginScreen) : LoginScreen × Option (String × String) :=
  match loginOutcome nullReadText r with
  | .ok token => ({ l with isLoading := false }, some (username, token))
  | .error m => ({ l with error := m, isLoading := false }, none)

/-- A whole login attempt on an `App` showing `LoginScreen`: `handleSubmit`, the request
settles with `r`, and `onLogin` is `handleLogin`. -/
def App.login (nullReadText : String → String) (r : FetchResult Json) (a : App)
    (l : LoginScreen) : App × LoginScreen :=
  let started := (LoginScreen.handleSubmit l).1
  let settled := LoginScreen.handleSubmit_settle nullReadText l.username r started
  match settled.2 with
  | some (username, token) => (handleLogin username token a, settled.1)
  | none => (a, settled.1)

/-! ## The form at the level of object references

`setFormData(supplier)` stores in `formData` the very object held in `displayedSuppliers`,
so the two cells alias.  Here objects live in a store and the cells hold references
(positions in the store); creating an object appends it to the store. -/

/-- The cells of `Dashboard` and `SupplierModal` that hold supplier objects, as references
into `heap`. -/
structure RefDashboard where
  heap : List JsObject
  displayedSuppliers : List Nat
  isModalOpen : Bool
  modalMode : ModalMode
  editingSupplier : Option Nat
  formData : Nat
deriving DecidableEq, Repr

/-- The object a reference points to. -/
def RefDashboard.deref (d : RefDashboard) (r : Nat) : Option JsObject := d.heap[r]?

/-- The rows of the list as values. -/
def RefDashboard.rows (d : RefDashboard) : List (Option JsObject) :=
  d.displayedSuppliers.map d.deref

/-- Whether the effect of `SupplierModal` is skipped after `openModal(mode, supplier)`: the
modal is already mounted and `mode` and `supplier` (the same reference) are those of the
previous render. -/
def refDepsUnchanged (mode : ModalMode) (supplier : Option Nat) (d : RefDashboard) : Bool :=
  d.isModalOpen && (mode == d.modalMode) && (supplier == d.editingSupplier)

/-- `openModal(mode, supplier)` and the render of `SupplierModal` that follows.  With the
modal open on the same `mode` and `supplier` only the three cells are set and the draft is
kept.  Otherwise `useState` creates the empty form object and the effect runs: it stores
`supplier` itself in edit mode and creates another empty form object otherwise. -/
def refOpenModal (mode : ModalMode) (supplier : Option Nat) (d : RefDashboard) :
    RefDashboard :=
  if refDepsUnchanged mode supplier d then
    { d with modalMode := mode, editingSupplier := supplier, isModalOpen := true }
  else
    let heap1 := d.heap ++ [blankForm]
    match mode, supplier with
    | .edit, some s =>
        { d with heap := heap1, modalMode := mode, editingSupplier := supplier,
                 isModalOpen := true, formData := s }
    | _, _ =>
        { d with heap := heap1 ++ [blankForm], modalMode := mode,
                 editingSupplier := supplier, isModalOpen := true,
                 formData := heap1.length }

/-- `handleChange`: the updater creates the object `{...prev, [name]: value}` and
`formData` refers to it. -/
def refHandleChange (name value : String) (d : RefDashboard) : RefDashboard :=
  { d with heap := d.heap ++ [setProp ((d.deref d.formData).getD []) name value],
           formData := d.heap.length }

/-- A sequence of `handleChange` events at the level of references. -/
def refHandleChanges (edits : List (String × String)) (d : RefDashboard) : RefDashboard :=
  edits.foldl (fun acc e => refHandleChange e.1 e.2 acc) d

/-- `closeModal()` at the level of references. -/
def refCloseModal (d : RefDashboard) : RefDashboard :=
  { d with isModalOpen := false, editingSupplier := none }

/-! ## Properties of the list requests -/

/-- The state after two list requests were initiated one after the other: the fields they
set do not depend on which requests they were. -/
theorem start_start (d : Dashboard) (A B : ListCall) :
    B.start (A.start d) = { d with isLoading := true, error := none } := by
  cases A <;> cases B <;> rfl

/-- Settling a request is `applyListOutcome` of its outcome. -/
theorem settle_eq (c : ListCall) (r : FetchResult (List JsObject)) (d : Dashboard) :
    c.settle r d = applyListOutcome (c.outcome r) d := by
  cases c <;> rfl

/-- C1, as stated, fails: it is not the case that, for two list requests A then B both in
flight, the list state after both responses have arrived (in either order) is the list
state that B alone produces.  When A's response arrives last its data replaces B's. -/
theorem stale_response_is_applied :
    ¬ ∀ (d : Dashboard) (A B : ListCall) (rA rB : FetchResult (List JsObject)),
        listState (B.settle rB (A.settle rA (B.start (A.start d)))) =
            listState (B.settle rB (B.start d)) ∧
        listState (A.settle rA (B.settle rB (B.start (A.start d)))) =
            listState (B.settle rB (B.start d)) := by
  intro h
  have h2 := (h (Dashboard.init "t") (.search "a" "" "") (.search "b" "" "")
    (.response true (.ok [[("nama", "a")]])) (.response true (.ok [[("nama", "b")]]))).2
  revert h2
  decide

/-- C1, amended: there is no guard; each response is applied when it arrives.  For two list
requests A then B both in flight, after both responses have arrived, in either order,
`isLoading` is false, `displayedSuppliers` is the data of the successful response that
arrived last (unchanged if both failed), and `error` is the message of the failed response
that arrived last (`null` if both succeeded). -/
theorem both_settled_in_arrival_order (d : Dashboard) (A B : ListCall)
    (rA rB : FetchResult (List JsObject)) :
    let inFlight := B.start (A.start d)
    let ab := B.settle rB (A.settle rA inFlight)
    let ba := A.settle rA (B.settle rB inFlight)
    (ab.isLoading = false ∧ ba.isLoading = false) ∧
    ab.displayedSuppliers =
      (match B.outcome rB, A.outcome rA with
       | .ok dataB, _ => dataB
       | .error _, .ok dataA => dataA
       | .error _, .error _ => d.displayedSuppliers) ∧
    ab.error =
      (match B.outcome rB, A.outcome rA with
       | .error mB, _ => some mB
       | .ok _, .error mA => some mA
       | .ok _, .ok _ => none) ∧
    ba.displayedSuppliers =
      (match A.outcome rA, B.outcome rB with
       | .ok dataA, _ => dataA
       | .error _, .ok dataB => dataB
       | .error _, .error _ => d.displayedSuppliers) ∧
    ba.error =
      (match A.outcome rA, B.outcome rB with
       | .error mA, _ => some mA
       | .ok _, .error mB => some mB
       | .ok _, .ok _ => none) := by
  simp only [start_start, settle_eq]
  cases A.outcome rA <;> cases B.outcome rB <;> simp [applyListOutcome]

/-- C10: a single `fetchAllSuppliers` or `handleSearch` call.  Initiation gives Loading with
`error` cleared.  Whatever the request settles to, afterwards `isLoading` is false.  On a
success response whose body parses, the state is Loaded with the response data.  On a
non-success status it is Failed with the call's message.  On a transport or body-parse
failure with message `m`, `error` is `m` and the list is untouched, and the view is Failed
with `m` (the view tests `error` for truthiness, so this needs `m` non-empty, as the
messages of the runtime's errors are).  The outcome is a success only for a success response
with a parsed body. -/
theorem list_call_settles (d : Dashboard) (c : ListCall) (r : FetchResult (List JsObject)) :
    let d1 := c.start d
    let d2 := c.settle r d1
    (d1.isLoading = true ∧ d1.error = none ∧ listState d1 = .Loading) ∧
    d2.isLoading = false ∧
    (∀ data, r = .response true (.ok data) →
        d2.displayedSuppliers = data ∧ d2.error = none ∧ listState d2 = .Loaded data) ∧
    (∀ json, r = .response false json →
        d2.error = some c.failMessage ∧ d2.displayedSuppliers = d.displayedSuppliers ∧
        listState d2 = .Failed c.failMessage) ∧
    (∀ m, (r = .rejected m ∨ r = .response true (.error m)) →
        d2.error = some m ∧ d2.displayedSuppliers = d.displayedSuppliers ∧
        (m ≠ "" → listState d2 = .Failed m)) ∧
    (∀ data, c.outcome r = .ok data ↔ r = .response true (.ok data)) := by
  refine ⟨?_, ?_, ?_, ?_, ?_, ?_⟩
  · cases c <;> simp [ListCall.start, fetchAllSuppliers, handleSearch, listState]
  · rw [settle_eq]
    cases c.outcome r <;> simp [applyListOutcome]
  · rintro data rfl
    cases c <;>
      simp [ListCall.start, ListCall.settle, fetchAllSuppliers, handleSearch,
        fetchAllSuppliers_settle, handleSearch_settle, listOutcome, applyListOutcome,
        listState, truthy]
  · rintro json rfl
    cases c <;>
      simp [ListCall.start, ListCall.settle, fetchAllSuppliers, handleSearch,
        fetchAllSuppliers_settle, handleSearch_settle, listOutcome, applyListOutcome,
        listState, truthy, ListCall.failMessage]
  · rintro m (rfl | rfl) <;> cases c <;>
      simp [ListCall.start, ListCall.settle, fetchAllSuppliers, handleSearch,
        fetchAllSuppliers_settle, handleSearch_settle, listOutcome, applyListOutcome,
        listState, truthy]
  · intro data
    rcases r with m | ⟨_ | _, _ | _⟩ <;> simp [ListCall.outcome, listOutcome]

/-- Witness for C10: the mount-time `fetchAllSuppliers` whose request is rejected by the
transport with the message "Failed to fetch". -/
theorem list_call_settles_witness :
    let d2 := ListCall.settle .fetchAll (.rejected "Failed to fetch")
      (ListCall.start .fetchAll (Dashboard.init "t"))
    d2.isLoading = false ∧ listState d2 = .Failed "Failed to fetch" :=
  have h := list_call_settles (Dashboard.init "t") .fetchAll (.rejected "Failed to fetch")
  ⟨h.2.1, (h.2.2.2.2.1 "Failed to fetch" (Or.inl rfl)).2.2 (by decide)⟩

/-! ## Properties of objects -/

/-- Reading the property just written. -/
theorem getProp_setProp_self (o : JsObject) (k v : String) :
    getProp (setProp o k v) k = some v := by
  induction o with
  | nil => simp [setProp, getProp]
  | cons p rest ih =>
    obtain ⟨k', v'⟩ := p
    by_cases h : k' = k
    · simp [setProp, getProp, h]
    · simp [setProp, getProp, h, ih]

/-- Writing one property leaves the others as they were. -/
theorem getProp_setProp_ne (o : JsObject) (k k' v : String) (h : k ≠ k') :
    getProp (setProp o k v) k' = getProp o k' := by
  induction o with
  | nil => simp [setProp, getProp, h]
  | cons p rest ih =>
    obtain ⟨k0, v0⟩ := p
    by_cases h0 : k0 = k
    · subst h0
      simp [setProp, getProp, h]
    · by_cases h1 : k0 = k'
      · subst h1
        simp [setProp, getProp, h0]
      · simp [setProp, getProp, h0, h1, ih]

/-- Writing a property the object already has keeps its property names and their order. -/
theorem keys_setProp_of_mem (o : JsObject) (k v : String) (h : k ∈ o.map Prod.fst) :
    (setProp o k v).map Prod.fst = o.map Prod.fst := by
  induction o with
  | nil => simp at h
  | cons p rest ih =>
    obtain ⟨k0, v0⟩ := p
    by_cases h0 : k0 = k
    · simp [setProp, h0]
    · have hrest : k ∈ rest.map Prod.fst := by
        simp only [List.map_cons, List.mem_cons] at h
        rcases h with h | h
        · exact absurd h.symm h0
        · exact h
      simp [setProp, h0, ih hrest]

/-! ## Properties of the supplier form -/

/-- A sequence of `handleChange` events touches `formData` only. -/
theorem handleChanges_frame (edits : List (String × String)) (d : Dashboard) :
    handleChanges edits d =
      { d with formData := edits.foldl (fun o e => setProp o e.1 e.2) d.formData } := by
  induction edits generalizing d with
  | nil => rfl
  | cons e rest ih =>
    simp only [handleChanges, List.foldl_cons] at ih ⊢
    rw [ih]
    rfl

/-- C2: when the save request fails (non-success status or transport failure), whatever the
state `d` (draft `d.formData`, mode `d.modalMode`) and whichever mode the request was sent
in, the settled handler leaves the whole state as it was: the modal stays open, mode,
edited record and draft are kept; no request is issued (no list refresh); the only effect
is the `alert` of the failure message. -/
theorem save_failure_keeps_form {β : Type} (d : Dashboard) (isEditMode : Bool)
    (r : FetchResult β) (hfail : saveSucceeded r = false) :
    let out := handleSaveSupplier_settle isEditMode r d
    out.1 = d ∧
    out.1.isModalOpen = d.isModalOpen ∧ out.1.modalMode = d.modalMode ∧
    out.1.editingSupplier = d.editingSupplier ∧ out.1.formData = d.formData ∧
    out.1.displayedSuppliers = d.displayedSuppliers ∧ out.1.isLoading = d.isLoading ∧
    (∀ req, Effect.fetch req ∉ out.2) ∧
    out.2 = [.alert (match r with
                     | .rejected m => m
                     | .response _ _ => saveFailMessage isEditMode)] := by
  rcases r with m | ⟨_ | _, j⟩
  · simp [handleSaveSupplier_settle]
  · simp [handleSaveSupplier_settle]
  · simp [saveSucceeded] at hfail

/-- Witness for C2: an edit of a record, sent as PUT, answered with a non-success status
(such as HTTP 500). -/
theorem save_failure_keeps_form_witness :
    let d := handleChange "nama" "X"
      (openModal .edit (some [("id", "7"), ("nama", "A")]) false (Dashboard.init "t"))
    let out := handleSaveSupplier_settle true (FetchResult.response false (.ok ())) d
    out.1.isModalOpen = true ∧ out.1.formData = [("id", "7"), ("nama", "X")] ∧
      out.2 = [.alert "Gagal memperbarui supplier."] :=
  have h := save_failure_keeps_form
    (handleChange "nama" "X"
      (openModal .edit (some [("id", "7"), ("nama", "A")]) false (Dashboard.init "t")))
    true (FetchResult.response false (.ok ())) rfl
  ⟨h.2.1.trans (by decide), h.2.2.2.2.1.trans (by decide), h.2.2.2.2.2.2.2.2.trans (by decide)⟩

/-- C3: when the save request returns a success status, whatever the state and the mode,
the settled handler closes the form (`isModalOpen = false`, `editingSupplier = null`) and
initiates exactly one request, the one of `fetchAllSuppliers`: GET on the list address with
no query; the list state is set to loading with `error` cleared. -/
theorem save_success_closes_and_refreshes {β : Type} (d : Dashboard) (isEditMode : Bool)
    (r : FetchResult β) (hok : saveSucceeded r = true) :
    let out := handleSaveSupplier_settle isEditMode r d
    out.1.isModalOpen = false ∧ out.1.editingSupplier = none ∧
    out.1 = (fetchAllSuppliers (closeModal d)).1 ∧
    out.2 = [.fetch (fetchAllSuppliers (closeModal d)).2] ∧
    out.2 = [.fetch { method := "GET", url := API_BASE_URL ++ "/api/supplier-kain",
                      query := [], headers := apiHeaders d, body := none }] ∧
    out.1.isLoading = true ∧ out.1.error = none := by
  rcases r with m | ⟨_ | _, j⟩
  · simp [saveSucceeded] at hok
  · simp [saveSucceeded] at hok
  · simp [handleSaveSupplier_settle, fetchAllSuppliers, closeModal, apiHeaders]

/-- Witness for C3: a new supplier, sent as POST, answered with a success status. -/
theorem save_success_closes_and_refreshes_witness :
    let d := handleChange "nama" "X" (openModal .add none false (Dashboard.init "t"))
    let out := handleSaveSupplier_settle false (FetchResult.response true (.ok ())) d
    out.1.isModalOpen = false ∧ out.1.editingSupplier = none ∧ out.2.length = 1 :=
  have h := save_success_closes_and_refreshes
    (handleChange "nama" "X" (openModal .add none false (Dashboard.init "t")))
    false (FetchResult.response true (.ok ())) rfl
  ⟨h.1, h.2.1, by rw [h.2.2.2.1]; rfl⟩

/-- C4, as stated, fails: for the draft typed into a form opened by `openModal('add')`, the
request is POST on the list address, but its body has the `id` property (holding the empty
string); it is not the object of the five fields. -/
theorem add_body_carries_id :
    let d := handleChanges
      [("nama", "A"), ("alamat", "B"), ("telepon", "1"), ("email", "a@b.c"), ("npwp", "2")]
      (openModal .add none false (Dashboard.init "t"))
    (handleSubmit d).method = "POST" ∧
    (handleSubmit d).url = "http://api.aijostore.id:8080/api/supplier-kain" ∧
    (handleSubmit d).body =
      some [("id", ""), ("nama", "A"), ("alamat", "B"), ("telepon", "1"), ("email", "a@b.c"),
        ("npwp", "2")] ∧
    (handleSubmit d).body ≠
      some [("nama", "A"), ("alamat", "B"), ("telepon", "1"), ("email", "a@b.c"),
        ("npwp", "2")] ∧
    (handleSubmit d).body.bind (fun b => getProp b "id") = some "" := by
  decide

/-! ## The draft in the states the dashboard can reach -/

/-- Edits through the five inputs of the form never write `id`: whatever properties the
draft has, its `id` reads the same after them. -/
theorem foldl_setProp_id_untouched (edits : List (String × String)) (o : JsObject)
    (hedits : ∀ e ∈ edits, e.1 ∈ requiredInputs) :
    getProp (edits.foldl (fun o e => setProp o e.1 e.2) o) "id" = getProp o "id" := by
  induction edits generalizing o with
  | nil => rfl
  | cons e rest ih =>
    have hne : e.1 ≠ "id" := by
      intro h
      have he : e.1 ∈ requiredInputs := hedits e (List.mem_cons_self _ _)
      rw [h] at he
      revert he
      decide
    have hrest := ih (setProp o e.1 e.2) (fun x hx => hedits x (List.mem_cons_of_mem _ hx))
    exact hrest.trans (getProp_setProp_ne o e.1 "id" e.2 hne)

/-- When the effect is skipped the modal was open on the same mode. -/
theorem depsUnchanged_open (mode : ModalMode) (supplier : Option JsObject) (b : Bool)
    (d : Dashboard) (h : depsUnchanged mode supplier b d = true) :
    d.isModalOpen = true ∧ d.modalMode = mode := by
  simp only [depsUnchanged, Bool.and_eq_true, beq_iff_eq] at h
  exact ⟨h.1.1, h.1.2.symm⟩

/-- When the effect is skipped on a supplier object, that object is the one held. -/
theorem depsUnchanged_held (mode : ModalMode) (s : JsObject) (b : Bool) (d : Dashboard)
    (h : depsUnchanged mode (some s) b d = true) : d.editingSupplier = some s := by
  simp only [depsUnchanged, Bool.and_eq_true] at h
  cases hheld : d.editingSupplier with
  | none => simp [hheld] at h
  | some held =>
    simp only [hheld, Bool.and_eq_true, beq_iff_eq] at h
    rw [h.2.2]

/-- The draft of a form opened by `openModal('add')` satisfies the invariant, whether the
form was closed, open on something else, or already open in Add mode. -/
theorem formInv_openModal_add (b : Bool) (d : Dashboard) (h : FormInv d) :
    FormInv (openModal .add none b d) := by
  intro _
  refine ⟨fun _ => ⟨rfl, ?_⟩, fun hmode => ?_⟩
  · by_cases hdu : depsUnchanged .add none b d = true
    · obtain ⟨hopen, hmode⟩ := depsUnchanged_open _ _ _ _ hdu
      have hadd := ((h hopen).1 hmode).2
      simpa [openModal, hdu] using hadd
    · have hblank : (openModal .add none b d).formData = blankForm := by
        simp [openModal, hdu, modalEffect]
      rw [hblank]
      exact ⟨rfl, rfl⟩
  · simp [openModal] at hmode

/-- The draft of a form opened by `openModal('edit', s)` has the `id` of `s`, whether the
effect ran (the draft is `s`) or was skipped (the draft typed so far is kept). -/
theorem formInv_openModal_edit (s : JsObject) (b : Bool) (d : Dashboard) (h : FormInv d) :
    FormInv (openModal .edit (some s) b d) := by
  intro _
  refine ⟨fun hmode => ?_, fun _ => ⟨s, rfl, ?_⟩⟩
  · simp [openModal] at hmode
  · by_cases hdu : depsUnchanged .edit (some s) b d = true
    · obtain ⟨hopen, hmode⟩ := depsUnchanged_open _ _ _ _ hdu
      have hheld := depsUnchanged_held _ _ _ _ hdu
      obtain ⟨s', hs', hid⟩ := (h hopen).2 hmode
      rw [hheld] at hs'
      cases hs'
      simpa [openModal, hdu] using hid
    · simp [openModal, hdu, modalEffect]

/-- An edit through one of the five inputs keeps the invariant. -/
theorem formInv_handleChange (name value : String) (d : Dashboard)
    (hname : name ∈ requiredInputs) (h : FormInv d) : FormInv (handleChange name value d) := by
  intro hopen
  have hd := h hopen
  have hne : name ≠ "id" := by
    intro hn
    rw [hn] at hname
    revert hname
    decide
  refine ⟨fun hmode => ?_, fun hmode => ?_⟩
  · obtain ⟨h1, h2, h3⟩ := hd.1 hmode
    have hmem : name ∈ d.formData.map Prod.fst := by
      rw [h2]
      simp only [requiredInputs, List.mem_cons] at hname
      simp only [formKeys, List.mem_cons]
      tauto
    refine ⟨h1, ?_, ?_⟩
    · exact (keys_setProp_of_mem d.formData name value hmem).trans h2
    · exact (getProp_setProp_ne d.formData name "id" value hne).trans h3
  · obtain ⟨s, hs, hid⟩ := hd.2 hmode
    exact ⟨s, hs, (getProp_setProp_ne d.formData name "id" value hne).trans hid⟩

/-- The invariant holds in every state the dashboard can reach. -/
theorem reachable_formInv (d : Dashboard) (hd : Reachable d) : FormInv d := by
  induction hd with
  | mount token =>
    intro h
    simp [Dashboard.init] at h
  | listStart c _ ih =>
    intro hopen
    cases c <;> exact ih hopen
  | listSettle c r _ ih =>
    rw [settle_eq]
    cases c.outcome r <;> intro hopen <;> exact ih hopen
  | openAdd b _ ih => exact formInv_openModal_add b _ ih
  | openEdit s b _ ih => exact formInv_openModal_edit s b _ ih
  | close _ _ =>
    intro h
    simp [closeModal] at h
  | change name value hname _ ih => exact formInv_handleChange name value _ hname ih
  | saveSettle isEditMode r _ ih =>
    rcases r with m | ⟨_ | _, j⟩
    · exact ih
    · exact ih
    · intro h
      simp [handleSaveSupplier_settle, fetchAllSuppliers, closeModal] at h

/-- C4, amended: in every state the dashboard can reach in which the form is open in Add
mode, the request issued on submit is POST on the list address and its body is the whole
draft: the six properties `id`, `nama`, `alamat`, `telepon`, `email`, `npwp`, with `id`
holding the empty string. -/
theorem add_request_is_post_of_whole_draft (d : Dashboard) (hd : Reachable d)
    (hopen : d.isModalOpen = true) (hadd : d.modalMode = .add) :
    handleSubmit d =
      { method := "POST", url := API_BASE_URL ++ "/api/supplier-kain", query := [],
        headers := apiHeaders d, body := some d.formData } ∧
    d.formData.map Prod.fst = ["id", "nama", "alamat", "telepon", "email", "npwp"] ∧
    getProp d.formData "id" = some "" := by
  obtain ⟨_, hkeys, hid⟩ := (reachable_formInv d hd hopen).1 hadd
  refine ⟨?_, hkeys, hid⟩
  simp [handleSubmit, handleSaveSupplier, hadd]

/-- Witness for C4, amended: a name is typed into a new form, the add button is pressed
again with the form open (the draft is kept), an address is typed, and the form is
submitted. -/
theorem add_request_is_post_of_whole_draft_witness :
    let d := handleChange "alamat" "B" (openModal .add none false
      (handleChange "nama" "A" (openModal .add none false (Dashboard.init "t"))))
    (handleSubmit d).method = "POST" ∧
      (handleSubmit d).body =
        some [("id", ""), ("nama", "A"), ("alamat", "B"), ("telepon", ""), ("email", ""),
          ("npwp", "")] :=
  have h := add_request_is_post_of_whole_draft
    (handleChange "alamat" "B" (openModal .add none false
      (handleChange "nama" "A" (openModal .add none false (Dashboard.init "t")))))
    (Reachable.change "alamat" "B" (by decide)
      (Reachable.openAdd false
        (Reachable.change "nama" "A" (by decide)
          (Reachable.openAdd false (Reachable.mount "t")))))
    (by decide) (by decide)
  ⟨by rw [h.1], by rw [h.1]; decide⟩

/-- C11: let `record` have a non-empty `id`, in any state the dashboard can reach.
Whenever the form is open in Edit mode on `record`, the draft's `id` is the record's and
submitting issues PUT on `/api/supplier-kain/` followed by that `id`, with the whole draft
as body.  In particular after `openModal('edit', record)` and any edits to `nama`,
`alamat`, `telepon`, `email`, `npwp`: the draft at opening is the record (or, when the
form was already open on this record, the draft typed so far), the edits are applied to
it, its `id` is still the record's, and the PUT carries the whole edited draft. -/
theorem edit_request_targets_record (d : Dashboard) (hd : Reachable d) (record : JsObject)
    (id : String) (hid : getProp record "id" = some id) (hne : id ≠ "") :
    (d.isModalOpen = true → d.modalMode = .edit → d.editingSupplier = some record →
      getProp d.formData "id" = some id ∧ truthy (getProp d.formData "id") = true ∧
      handleSubmit d =
        { method := "PUT", url := API_BASE_URL ++ "/api/supplier-kain/" ++ id, query := [],
          headers := apiHeaders d, body := some d.formData }) ∧
    (∀ (sameObject : Bool) (edits : List (String × String)),
      (∀ e ∈ edits, e.1 ∈ requiredInputs) →
      let opened := openModal .edit (some record) sameObject d
      let s := handleChanges edits opened
      opened.formData =
        (if depsUnchanged .edit (some record) sameObject d then d.formData else record) ∧
      s.formData = edits.foldl (fun o e => setProp o e.1 e.2) opened.formData ∧
      getProp s.formData "id" = some id ∧
      s.modalMode = .edit ∧ s.editingSupplier = some record ∧
      handleSubmit s =
        { method := "PUT", url := API_BASE_URL ++ "/api/supplier-kain/" ++ id, query := [],
          headers := apiHeaders d, body := some s.formData }) := by
  have hput : ∀ x : Dashboard, x.modalMode = .edit → getProp x.formData "id" = some id →
      handleSubmit x =
        { method := "PUT", url := API_BASE_URL ++ "/api/supplier-kain/" ++ id, query := [],
          headers := apiHeaders x, body := some x.formData } := by
    intro x hmode hx
    simp [handleSubmit, handleSaveSupplier, hmode, idText, hx]
  constructor
  · intro hopen hmode hheld
    obtain ⟨s', hs', hid'⟩ := (reachable_formInv d hd hopen).2 hmode
    rw [hheld] at hs'
    cases hs'
    have hdraft : getProp d.formData "id" = some id := hid'.trans hid
    refine ⟨hdraft, ?_, hput d hmode hdraft⟩
    rw [hdraft]
    simp [truthy, hne]
  · intro sameObject edits hedits
    have hinv := formInv_openModal_edit record sameObject d (reachable_formInv d hd)
    obtain ⟨s', hs', hid'⟩ := (hinv rfl).2 rfl
    have hs'' : some record = some s' := hs'
    cases hs''
    have hopened : getProp (openModal .edit (some record) sameObject d).formData "id" =
        some id := hid'.trans hid
    have hframe := handleChanges_frame edits (openModal .edit (some record) sameObject d)
    have hform : (handleChanges edits (openModal .edit (some record) sameObject d)).formData =
        edits.foldl (fun o e => setProp o e.1 e.2)
          (openModal .edit (some record) sameObject d).formData := by
      rw [hframe]
    have hmode : (handleChanges edits
        (openModal .edit (some record) sameObject d)).modalMode = .edit := by
      rw [hframe]
      rfl
    have hdraft : getProp (handleChanges edits
        (openModal .edit (some record) sameObject d)).formData "id" = some id := by
      rw [hform, foldl_setProp_id_untouched edits _ hedits, hopened]
    have hheaders : apiHeaders (handleChanges edits
        (openModal .edit (some record) sameObject d)) = apiHeaders d := by
      rw [hframe]
      rfl
    refine ⟨rfl, hform, hdraft, hmode, ?_, ?_⟩
    · rw [hframe]
      rfl
    · rw [hput _ hmode hdraft, hheaders]

/-- Witness for C11: the record with `id` "7" is opened for editing and its name retyped;
Edit is pressed again on the same row with the form open (the draft is kept); the phone is
retyped and the form is submitted. -/
theorem edit_request_targets_record_witness :
    let record : JsObject :=
      [("id", "7"), ("nama", "A"), ("alamat", "B"), ("telepon", "1"), ("email", "a@b.c"),
        ("npwp", "2")]
    let d := handleChange "nama" "X" (openModal .edit (some record) false (Dashboard.init "t"))
    let s := handleChanges [("telepon", "9")] (openModal .edit (some record) true d)
    (handleSubmit s).method = "PUT" ∧
      (handleSubmit s).url = "http://api.aijostore.id:8080/api/supplier-kain/7" ∧
      (handleSubmit s).body =
        some [("id", "7"), ("nama", "X"), ("alamat", "B"), ("telepon", "9"),
          ("email", "a@b.c"), ("npwp", "2")] :=
  have h := (edit_request_targets_record
    (handleChange "nama" "X"
      (openModal .edit
        (some [("id", "7"), ("nama", "A"), ("alamat", "B"), ("telepon", "1"),
          ("email", "a@b.c"), ("npwp", "2")])
        false (Dashboard.init "t")))
    (Reachable.change "nama" "X" (by decide)
      (Reachable.openEdit _ false (Reachable.mount "t")))
    [("id", "7"), ("nama", "A"), ("alamat", "B"), ("telepon", "1"), ("email", "a@b.c"),
      ("npwp", "2")]
    "7" (by decide) (by decide)).2 true [("telepon", "9")] (by decide)
  ⟨by rw [h.2.2.2.2.2], (by rw [h.2.2.2.2.2]; decide), (by rw [h.2.2.2.2.2]; decide)⟩

/-! ## Properties of the session -/

/-- A removed key reads as `null`. -/
theorem getItem_removeItem_self (st : Storage) (k : String) :
    getItem (removeItem st k) k = none := by
  induction st with
  | nil => rfl
  | cons p rest ih =>
    obtain ⟨k0, v0⟩ := p
    by_cases h : k0 = k
    · simpa [removeItem, getItem, List.filter_cons, h] using ih
    · simpa [removeItem, getItem, List.filter_cons, h, getProp] using ih

/-- Removing a key leaves the other keys as they were. -/
theorem getItem_removeItem_ne (st : Storage) (k k' : String) (h : k ≠ k') :
    getItem (removeItem st k) k' = getItem st k' := by
  induction st with
  | nil => rfl
  | cons p rest ih =>
    obtain ⟨k0, v0⟩ := p
    by_cases h0 : k0 = k
    · subst h0
      simpa [removeItem, getItem, List.filter_cons, getProp, h] using ih
    · by_cases h1 : k0 = k'
      · subst h1
        simp [removeItem, getItem, List.filter_cons, getProp, h0]
      · simpa [removeItem, getItem, List.filter_cons, getProp, h0, h1] using ih

/-- A truthy value is a non-empty string. -/
theorem truthy_iff (v : Option String) : truthy v = true ↔ ∃ s, v = some s ∧ s ≠ "" := by
  cases v with
  | none => simp [truthy]
  | some s => simp [truthy]

/-- What the store holds after `handleLogin`. -/
theorem getItem_handleLogin (username token : String) (a : App) :
    getItem (handleLogin username token a).sessionStorage "aijoHubToken" = some token ∧
    getItem (handleLogin username token a).sessionStorage "aijoHubUser" = some username := by
  constructor
  · simp only [handleLogin, getItem, setItem]
    rw [getProp_setProp_ne _ _ _ _ (by decide), getProp_setProp_self]
  · simp only [handleLogin, getItem, setItem]
    rw [getProp_setProp_self]

/-- C6: for every username, password (the state `l` of the screen) and settled login
request `r`, `handleSubmit` calls `onLogin` exactly when the response has a success status,
its body parses to an object, and its `token` is truthy (present and non-empty).  In that
case the call is `handleLogin(username, token)`: both keys `aijoHubToken` and `aijoHubUser`
are written and the `token` and `user` cells are set.  In every other case (non-success
status, missing token, unreadable or `null` body, transport failure) the `App` state, store
included, is unchanged, and the screen's `error` is the message of the failure, with
`isLoading` false. -/
theorem login_persists_iff_token (nullReadText : String → String) (a : App)
    (l : LoginScreen) (r : FetchResult Json) :
    let call :=
      (LoginScreen.handleSubmit_settle nullReadText l.username r
        (LoginScreen.handleSubmit l).1).2
    let out := App.login nullReadText r a l
    (call.isSome = true ↔
        ∃ data, r = .response true (.ok (.object data)) ∧
          truthy (getProp data "token") = true) ∧
    (∀ data, r = .response true (.ok (.object data)) → truthy (getProp data "token") = true →
        out.1 = handleLogin l.username ((getProp data "token").getD "") a ∧
        getItem out.1.sessionStorage "aijoHubToken" = getProp data "token" ∧
        getItem out.1.sessionStorage "aijoHubUser" = some l.username ∧
        out.1.token = getProp data "token" ∧ out.1.user = some l.username) ∧
    (call = none →
        out.1 = a ∧
        ∃ m, loginOutcome nullReadText r = .error m ∧ out.2.error = m ∧
          out.2.isLoading = false) := by
  refine ⟨?_, ?_, ?_⟩
  · rcases r with m | ⟨_ | _, e | data⟩
    · simp [LoginScreen.handleSubmit_settle, loginOutcome]
    · simp [LoginScreen.handleSubmit_settle, loginOutcome, readProp]
    · cases data <;> simp [LoginScreen.handleSubmit_settle, loginOutcome, readProp]
    · simp [LoginScreen.handleSubmit_settle, loginOutcome]
    · cases data with
      | null => simp [LoginScreen.handleSubmit_settle, loginOutcome, readProp]
      | other => simp [LoginScreen.handleSubmit_settle, loginOutcome, readProp, truthy]
      | object o =>
        by_cases ht : truthy (getProp o "token") = true
        · simp [LoginScreen.handleSubmit_settle, loginOutcome, readProp, ht]
        · simp [LoginScreen.handleSubmit_settle, loginOutcome, readProp, ht]
  · rintro data rfl ht
    obtain ⟨tok, htok, _⟩ := (truthy_iff _).1 ht
    rw [htok] at ht
    have hout : App.login nullReadText (.response true (.ok (.object data))) a l =
        (handleLogin l.username tok a,
          { ((LoginScreen.handleSubmit l).1) with isLoading := false }) := by
      simp [App.login, LoginScreen.handleSubmit_settle, loginOutcome, readProp, ht, htok,
        LoginScreen.handleSubmit]
    rw [hout, htok]
    exact ⟨rfl, (getItem_handleLogin _ _ _).1, (getItem_handleLogin _ _ _).2, rfl, rfl⟩
  · intro hcall
    cases hr : loginOutcome nullReadText r with
    | ok tok => simp [LoginScreen.handleSubmit_settle, hr] at hcall
    | error m =>
      simp [App.login, LoginScreen.handleSubmit_settle, hr]

/-- Witness for C6: a success response with a token, and a 401 with a message. -/
theorem login_persists_iff_token_witness :
    let a := App.init []
    let l : LoginScreen := { username := "u", password := "p", error := "", isLoading := false }
    getItem (App.login (fun _ => "TypeError")
        (.response true (.ok (.object [("token", "T")]))) a l).1.sessionStorage
        "aijoHubToken" = some "T" ∧
      (App.login (fun _ => "TypeError")
        (.response false (.ok (.object [("message", "no")]))) a l).1 = a :=
  have h1 := login_persists_iff_token (fun _ => "TypeError") (App.init [])
    { username := "u", password := "p", error := "", isLoading := false }
    (.response true (.ok (.object [("token", "T")])))
  have h2 := login_persists_iff_token (fun _ => "TypeError") (App.init [])
    { username := "u", password := "p", error := "", isLoading := false }
    (.response false (.ok (.object [("message", "no")])))
  ⟨(h1.2.1 _ rfl (by decide)).2.1.trans (by decide), (h2.2.2 (by decide)).1⟩

/-- C7, as stated, fails: no single generic message serves every non-success response whose
body has no `message`, whatever the runtime's texts.  A body that is not JSON gives one
text, a JSON object without `message` gives another. -/
theorem login_fallback_not_single :
    ¬ ∃ (nullReadText : String → String) (generic : String),
        ∀ json : Except String Json,
          loginOutcome nullReadText (.response false json) =
            .error (match json with
                    | .ok (.object body) => (getProp body "message").getD generic
                    | _ => generic) := by
  rintro ⟨t, generic, h⟩
  have h1 := h (.error "Unexpected token")
  have h2 := h (.ok (.object []))
  simp [loginOutcome, readProp, orElse, truthy, getProp] at h1 h2
  rw [← h1] at h2
  revert h2
  decide

/-- C7, amended.  For a non-success response the login error is: "Username atau password
salah." when the body does not parse; the runtime's `TypeError` text for reading `message`
of `null` when the body parses to `null`; the body's `message` when the body is an object
with a non-empty `message`; "Gagal melakukan otentikasi." when the body is an object with
no (or an empty) `message`, or any other JSON value.  For a success response whose body
parses, login fails and `onLogin` is not called when the body is an object with no (or an
empty) `token` or another non-`null` value, with "Token tidak ditemukan pada respons." as
the screen's `error`, and when the body is `null`, with the runtime's `TypeError` text for
reading `token` of `null`.  When the body of a success response does not parse, login
fails with the message of the parse error and `onLogin` is not called. -/
theorem login_error_messages (nullReadText : String → String) (username : String)
    (l : LoginScreen) :
    (∀ e, loginOutcome nullReadText (.response false (.error e)) =
        .error "Username atau password salah.") ∧
    loginOutcome nullReadText (.response false (.ok .null)) =
        .error (nullReadText "message") ∧
    (∀ body m, getProp body "message" = some m → m ≠ "" →
        loginOutcome nullReadText (.response false (.ok (.object body))) = .error m) ∧
    (∀ body, truthy (getProp body "message") = false →
        loginOutcome nullReadText (.response false (.ok (.object body))) =
          .error "Gagal melakukan otentikasi.") ∧
    loginOutcome nullReadText (.response false (.ok .other)) =
        .error "Gagal melakukan otentikasi." ∧
    (∀ data, truthy (getProp data "token") = false →
        LoginScreen.handleSubmit_settle nullReadText username
            (.response true (.ok (.object data))) l =
          ({ l with error := "Token tidak ditemukan pada respons.", isLoading := false },
            none)) ∧
    LoginScreen.handleSubmit_settle nullReadText username (.response true (.ok .other)) l =
        ({ l with error := "Token tidak ditemukan pada respons.", isLoading := false },
          none) ∧
    LoginScreen.handleSubmit_settle nullReadText username (.response true (.ok .null)) l =
        ({ l with error := nullReadText "token", isLoading := false }, none) ∧
    (∀ e, LoginScreen.handleSubmit_settle nullReadText username
            (.response true (.error e)) l =
          ({ l with error := e, isLoading := false }, none)) := by
  refine ⟨?_, ?_, ?_, ?_, ?_, ?_, ?_, ?_, ?_⟩
  · intro e
    simp [loginOutcome, readProp, orElse, truthy, getProp]
  · simp [loginOutcome, readProp]
  · intro body m hm hne
    simp [loginOutcome, readProp, orElse, truthy, hm, hne]
  · intro body hf
    simp [loginOutcome, readProp, orElse, hf]
  · simp [loginOutcome, readProp, orElse, truthy]
  · intro data hf
    simp [LoginScreen.handleSubmit_settle, loginOutcome, readProp, hf]
  · simp [LoginScreen.handleSubmit_settle, loginOutcome, readProp, truthy]
  · simp [LoginScreen.handleSubmit_settle, loginOutcome, readProp]
  · intro e
    simp [LoginScreen.handleSubmit_settle, loginOutcome]

/-- Witness for C7, amended: a 401 whose body carries a message, and a success response
with an empty body object. -/
theorem login_error_messages_witness :
    loginOutcome (fun _ => "TypeError")
        (.response false (.ok (.object [("message", "Akun terkunci")]))) =
        .error "Akun terkunci" ∧
      (LoginScreen.handleSubmit_settle (fun _ => "TypeError") "u"
        (.response true (.ok (.object [])))
        { username := "u", password := "p", error := "", isLoading := true }).2 = none :=
  have h := login_error_messages (fun _ => "TypeError") "u"
    { username := "u", password := "p", error := "", isLoading := true }
  ⟨h.2.2.1 [("message", "Akun terkunci")] "Akun terkunci" (by decide) (by decide),
   by rw [h.2.2.2.2.2.1 [] (by decide)]⟩

/-- C8: for every session state, after `handleLogout` both keys are absent from the store
and the `App` renders the login view; an `App` mounted afterwards on that store reads no
token and no user and renders the login view.  After `handleLogin(username, token)` with a
non-empty token, an `App` mounted on the store reads exactly that token and username and
renders the dashboard for them. -/
theorem logout_login_restore (a : App) :
    (let a1 := handleLogout a
     getItem a1.sessionStorage "aijoHubToken" = none ∧
     getItem a1.sessionStorage "aijoHubUser" = none ∧
     a1.render = .LoginScreen ∧
     (App.init a1.sessionStorage).token = none ∧
     (App.init a1.sessionStorage).user = none ∧
     (App.init a1.sessionStorage).render = .LoginScreen) ∧
    (∀ username token : String, token ≠ "" →
     let a2 := handleLogin username token a
     (App.init a2.sessionStorage).token = some token ∧
     (App.init a2.sessionStorage).user = some username ∧
     (App.init a2.sessionStorage).render = .Dashboard (some username) token ∧
     a2.render = .Dashboard (some username) token) := by
  have ht : getItem (handleLogout a).sessionStorage "aijoHubToken" = none := by
    simp only [handleLogout]
    rw [getItem_removeItem_ne _ _ _ (by decide), getItem_removeItem_self]
  have hu : getItem (handleLogout a).sessionStorage "aijoHubUser" = none := by
    simp only [handleLogout]
    rw [getItem_removeItem_self]
  constructor
  · refine ⟨ht, hu, ?_, ?_, ?_, ?_⟩
    · simp [handleLogout, App.render, truthy]
    · simpa [App.init] using ht
    · simpa [App.init] using hu
    · simp [App.init, App.render, ht, truthy]
  · intro username token hne
    have h := getItem_handleLogin username token a
    refine ⟨?_, ?_, ?_, ?_⟩
    · simpa [App.init] using h.1
    · simpa [App.init] using h.2
    · simp [App.init, App.render, h.1, h.2, truthy, hne]
    · simp [handleLogin, App.render, truthy, hne]

/-- Witness for C8: logging in as "u" with token "T" on an empty store. -/
theorem logout_login_restore_witness :
    (App.init (handleLogin "u" "T" (App.init [])).sessionStorage).token = some "T" ∧
      (App.init (handleLogin "u" "T" (App.init [])).sessionStorage).user = some "u" :=
  have h := (logout_login_restore (App.init [])).2 "u" "T" (by decide)
  ⟨h.1, h.2.1⟩

/-! ## Properties of the form at the level of references -/

/-- One `handleChange` appends one object to the store and moves no other cell than
`formData`; the new draft is the old one with the property written. -/
theorem refHandleChange_spec (name value : String) (d : RefDashboard) :
    (refHandleChange name value d).heap =
        d.heap ++ [setProp ((d.deref d.formData).getD []) name value] ∧
    (refHandleChange name value d).displayedSuppliers = d.displayedSuppliers ∧
    (refHandleChange name value d).deref (refHandleChange name value d).formData =
        some (setProp ((d.deref d.formData).getD []) name value) := by
  refine ⟨rfl, rfl, ?_⟩
  simp [refHandleChange, RefDashboard.deref]

/-- A sequence of `handleChange` events only appends to the store, leaves the list cell
alone, and makes the draft the fold of the edits over the draft it started from. -/
theorem refHandleChanges_spec (edits : List (String × String)) (d : RefDashboard)
    (o : JsObject) (ho : d.deref d.formData = some o) :
    (∃ ext, (refHandleChanges edits d).heap = d.heap ++ ext) ∧
    (refHandleChanges edits d).displayedSuppliers = d.displayedSuppliers ∧
    (refHandleChanges edits d).deref (refHandleChanges edits d).formData =
        some (edits.foldl (fun o e => setProp o e.1 e.2) o) := by
  induction edits generalizing d o with
  | nil => exact ⟨⟨[], by simp [refHandleChanges]⟩, rfl, ho⟩
  | cons e rest ih =>
    have h1 := refHandleChange_spec e.1 e.2 d
    rw [ho] at h1
    obtain ⟨⟨ext, hext⟩, hdisp, hform⟩ :=
      ih (refHandleChange e.1 e.2 d) (setProp o e.1 e.2) h1.2.2
    have hstep : refHandleChanges (e :: rest) d =
        refHandleChanges rest (refHandleChange e.1 e.2 d) := rfl
    rw [hstep]
    refine ⟨⟨[setProp o e.1 e.2] ++ ext, ?_⟩, hdisp.trans h1.2.1, ?_⟩
    · rw [hext, h1.1]
      simp
    · simpa using hform

/-- A sequence of `handleChange` events only appends to the store and leaves the list cell
alone, whatever `formData` refers to. -/
theorem refHandleChanges_frame (edits : List (String × String)) (d : RefDashboard) :
    (∃ ext, (refHandleChanges edits d).heap = d.heap ++ ext) ∧
    (refHandleChanges edits d).displayedSuppliers = d.displayedSuppliers := by
  induction edits generalizing d with
  | nil => exact ⟨⟨[], by simp [refHandleChanges]⟩, rfl⟩
  | cons e rest ih =>
    obtain ⟨⟨ext, hext⟩, hdisp⟩ := ih (refHandleChange e.1 e.2 d)
    have hstep : refHandleChanges (e :: rest) d =
        refHandleChanges rest (refHandleChange e.1 e.2 d) := rfl
    have h1 := refHandleChange_spec e.1 e.2 d
    rw [hstep]
    refine ⟨⟨[setProp ((d.deref d.formData).getD []) e.1 e.2] ++ ext, ?_⟩,
      hdisp.trans h1.2.1⟩
    rw [hext, h1.1, List.append_assoc]

/-- Opening the form only appends to the store and leaves the list cell alone. -/
theorem refOpenModal_frame (mode : ModalMode) (supplier : Option Nat) (d : RefDashboard) :
    (∃ ext, (refOpenModal mode supplier d).heap = d.heap ++ ext) ∧
    (refOpenModal mode supplier d).displayedSuppliers = d.displayedSuppliers := by
  by_cases hdu : refDepsUnchanged mode supplier d = true
  · exact ⟨⟨[], by simp [refOpenModal, hdu]⟩, by simp [refOpenModal, hdu]⟩
  · cases mode <;> cases supplier
    · exact ⟨⟨[blankForm] ++ [blankForm], by simp [refOpenModal, hdu]⟩,
        by simp [refOpenModal, hdu]⟩
    · exact ⟨⟨[blankForm] ++ [blankForm], by simp [refOpenModal, hdu]⟩,
        by simp [refOpenModal, hdu]⟩
    · exact ⟨⟨[blankForm] ++ [blankForm], by simp [refOpenModal, hdu]⟩,
        by simp [refOpenModal, hdu]⟩
    · exact ⟨⟨[blankForm], by simp [refOpenModal, hdu]⟩, by simp [refOpenModal, hdu]⟩

/-- C9: for every record shown in the list, after `openModal('edit', record)`, any sequence
of `handleChange` events (any names, any values) and `closeModal()`, the object the record
refers to is what it was, the list cell holds the same references, and every row has the
value it had.  This holds whether the form was closed or already open.  When the effect
runs (the form was closed, or open on another mode or record) the draft is the record
object itself, and before closing it is the record with the edits applied; in general the
edits are applied, in fresh objects, to the draft the form holds after opening. -/
theorem edit_then_close_leaves_list (d : RefDashboard) (record : Nat)
    (edits : List (String × String))
    (hwf : ∀ r ∈ d.displayedSuppliers, r < d.heap.length)
    (hrec : record ∈ d.displayedSuppliers) :
    let opened := refOpenModal .edit (some record) d
    let edited := refHandleChanges edits opened
    let closed := refCloseModal edited
    (refDepsUnchanged .edit (some record) d = false → opened.formData = record) ∧
    closed.deref record = d.deref record ∧
    closed.displayedSuppliers = d.displayedSuppliers ∧
    closed.rows = d.rows ∧
    (refDepsUnchanged .edit (some record) d = false → ∀ o, d.deref record = some o →
        edited.deref edited.formData =
          some (edits.foldl (fun o e => setProp o e.1 e.2) o)) ∧
    (refDepsUnchanged .edit (some record) d = true → opened.formData = d.formData) ∧
    (∀ o, opened.deref opened.formData = some o →
        edited.deref edited.formData =
          some (edits.foldl (fun o e => setProp o e.1 e.2) o)) := by
  have hlt : record < d.heap.length := hwf record hrec
  obtain ⟨⟨ext0, hheap0⟩, hdisp0⟩ := refOpenModal_frame .edit (some record) d
  obtain ⟨⟨ext, hext⟩, hdisp⟩ :=
    refHandleChanges_frame edits (refOpenModal .edit (some record) d)
  have hheap : (refCloseModal (refHandleChanges edits (refOpenModal .edit (some record) d))).heap
      = d.heap ++ (ext0 ++ ext) := by
    show (refHandleChanges edits (refOpenModal .edit (some record) d)).heap = _
    rw [hext, hheap0, List.append_assoc]
  have hderef : ∀ r, r < d.heap.length →
      (refCloseModal (refHandleChanges edits (refOpenModal .edit (some record) d))).deref r
        = d.deref r := by
    intro r hr
    simp only [RefDashboard.deref, hheap]
    exact List.getElem?_append_left hr
  have hlist : (refCloseModal
      (refHandleChanges edits (refOpenModal .edit (some record) d))).displayedSuppliers
        = d.displayedSuppliers := by
    show (refHandleChanges edits (refOpenModal .edit (some record) d)).displayedSuppliers = _
    rw [hdisp, hdisp0]
  have hfirst : refDepsUnchanged .edit (some record) d = false →
      (refOpenModal .edit (some record) d).formData = record := by
    intro hdu
    simp [refOpenModal, hdu]
  have hdraft : ∀ o, (refOpenModal .edit (some record) d).deref
      (refOpenModal .edit (some record) d).formData = some o →
      (refHandleChanges edits (refOpenModal .edit (some record) d)).deref
        (refHandleChanges edits (refOpenModal .edit (some record) d)).formData =
          some (edits.foldl (fun o e => setProp o e.1 e.2) o) :=
    fun o ho => (refHandleChanges_spec edits _ o ho).2.2
  refine ⟨hfirst, hderef record hlt, hlist, ?_, ?_, ?_, hdraft⟩
  · simp only [RefDashboard.rows, hlist]
    exact List.map_congr_left (fun r hr => hderef r (hwf r hr))
  · intro hdu o ho
    apply hdraft
    rw [hfirst hdu]
    simp only [RefDashboard.deref, hheap0] at ho ⊢
    rw [List.getElem?_append_left hlt]
    exact ho
  · intro hdu
    simp [refOpenModal, hdu]

/-- Witness for C9: the second row is opened for editing, its `nama` is retyped twice, and
the form is closed. -/
theorem edit_then_close_leaves_list_witness :
    let d : RefDashboard :=
      { heap := [[("id", "1"), ("nama", "A")], [("id", "2"), ("nama", "B")]],
        displayedSuppliers := [0, 1], isModalOpen := false, modalMode := .add,
        editingSupplier := none, formData := 0 }
    let edited := refHandleChanges [("nama", "X"), ("nama", "Y")]
      (refOpenModal .edit (some 1) d)
    (refCloseModal edited).rows =
        [some [("id", "1"), ("nama", "A")], some [("id", "2"), ("nama", "B")]] ∧
      edited.deref edited.formData = some [("id", "2"), ("nama", "Y")] :=
  have h := edit_then_close_leaves_list
    { heap := [[("id", "1"), ("nama", "A")], [("id", "2"), ("nama", "B")]],
      displayedSuppliers := [0, 1], isModalOpen := false, modalMode := .add,
      editingSupplier := none, formData := 0 }
    1 [("nama", "X"), ("nama", "Y")] (by decide) (by decide)
  ⟨h.2.2.2.1.trans (by decide),
   (h.2.2.2.2.1 (by decide) [("id", "2"), ("nama", "B")] (by decide)).trans (by decide)⟩

end AijoHub
